import Mathlib

/-!
# Verification of the realtimeTTS-go streaming pipeline

Shallow embedding of the repository's data model and operations:
the bounded audio buffers (`AudioBufferManager` in `audioBufferManager.go`,
`AudioBuffer` in `pkg/audioBuffer.go`), the sentence splitter and the
synthesis failover loop of `TextToAudioStream` (`audioConfig.go`), the
device adaptor (`audioStream.go`) and the stream players
(`streamPlayer.go` and the `AudioBuffer`-backed draft).

Go channels are modelled as FIFO lists with an explicit capacity; a
non-blocking send (`select` with a `default` branch) succeeds exactly
when the queue length is below capacity.  Byte values are `Nat`
(reduced mod 256 where the code reinterprets them), machine integers
are `Int`.  Float samples are represented by their integer numerators
(for 16-bit input a sample `v/32768.0` is represented by `v`); this is
faithful for the properties below because the divisions are injective
and silence `0.0` corresponds exactly to numerator `0`.  Fallible
operations return an error component; a Go runtime panic (close of a
closed channel, out-of-range index) is a distinguished outcome.
-/

namespace RealtimeTTS

/-- Sentinel errors of `pkg/errors.go`; `wrapped e` models
`fmt.Errorf("...: %w", e)`. -/
inductive GoError
  | bufferFull
  | bufferEmpty
  | bufferTimeout
  | streamNotOpen
  | streamAlreadyOpen
  | streamNotActive
  | streamAlreadyActive
  | playerNotPlaying
  | playerAlreadyPlaying
  | playerPaused
  | feedWhilePlaying
  | textBufferFull
  | noEngineAvailable
  | allEnginesFailed
  | wrapped (inner : GoError)
  deriving DecidableEq, Repr

/-- The fields of `AudioConfiguration` (`types.go`) used by the buffer and
device arithmetic. -/
structure AudioConfiguration where
  channels : Nat
  sampleRate : Int
  bitsPerSample : Nat
  muted : Bool
  deriving DecidableEq, Repr

/-- Model of `AudioConfiguration.GetBytesPerFrame` (`audioConfig.go`):
`channels * (bitsPerSample / 8)` with Go integer division. -/
def AudioConfiguration.getBytesPerFrame (c : AudioConfiguration) : Nat :=
  c.channels * (c.bitsPerSample / 8)

/-- Model of `TimingInfo` (`audioBufferManager.go`); durations in nanoseconds. -/
structure TimingInfo where
  word : List Char
  startTime : Int
  endTime : Int
  duration : Int
  deriving DecidableEq, Repr

/-! ## AudioBufferManager (`audioBufferManager.go`)

`audioBuffer` and `timings` are buffered channels of capacity
`bufferSize`; chunks are byte lists. -/

structure AudioBufferManager where
  audioBuffer : List (List Nat)
  timings : List TimingInfo
  config : AudioConfiguration
  totalSamples : Int
  bufferSize : Nat
  isClosed : Bool
  bytesProcessed : Int
  chunksProcessed : Int
  deriving DecidableEq, Repr

/-- Model of `NewAudioBufferManager`. -/
def mkAudioBufferManager (config : AudioConfiguration) (bufferSize : Nat) :
    AudioBufferManager :=
  { audioBuffer := []
    timings := []
    config := config
    totalSamples := 0
    bufferSize := bufferSize
    isClosed := false
    bytesProcessed := 0
    chunksProcessed := 0 }

/-- Model of `AudioBufferManager.AddToBuffer`: returns `ErrBufferFull` when closed;
otherwise a non-blocking channel send (`select` with `default`) which
succeeds iff the queue is below capacity, updating `totalSamples`,
`bytesProcessed` and `chunksProcessed`, and returns `ErrBufferFull`
otherwise. -/
def AudioBufferManager.addToBuffer (abm : AudioBufferManager)
    (audioData : List Nat) : Option GoError × AudioBufferManager :=
  if abm.isClosed then
    (some .bufferFull, abm)
  else if abm.audioBuffer.length < abm.bufferSize then
    (none,
      { abm with
        audioBuffer := abm.audioBuffer ++ [audioData]
        totalSamples :=
          abm.totalSamples + (audioData.length / abm.config.getBytesPerFrame : Nat)
        bytesProcessed := abm.bytesProcessed + audioData.length
        chunksProcessed := abm.chunksProcessed + 1 })
  else
    (some .bufferFull, abm)

/-- Model of `AudioBufferManager.GetFromBuffer`: `ErrBufferEmpty` when closed;
otherwise receive a chunk if one is queued (decrementing `totalSamples`
by its frame count) and `ErrBufferTimeout` if the queue stays empty for
the timeout (no concurrent producer in the sequential model). -/
def AudioBufferManager.getFromBuffer (abm : AudioBufferManager) :
    (Option (List Nat) × Option GoError) × AudioBufferManager :=
  if abm.isClosed then
    ((none, some .bufferEmpty), abm)
  else
    match abm.audioBuffer with
    | [] => ((none, some .bufferTimeout), abm)
    | audioData :: rest =>
      ((some audioData, none),
        { abm with
          audioBuffer := rest
          totalSamples :=
            abm.totalSamples - (audioData.length / abm.config.getBytesPerFrame : Nat) })

/-- Model of `AudioBufferManager.ClearBuffer`: drain both channels, zero
`totalSamples`. -/
def AudioBufferManager.clearBuffer (abm : AudioBufferManager) :
    AudioBufferManager :=
  { abm with audioBuffer := [], timings := [], totalSamples := 0 }

/-- One iteration of the inner loop of
`AudioBufferManager.processTTSAudio`: `AddToBuffer(chunk)`, and on error
`continue` — the chunk is dropped. -/
def AudioBufferManager.processChunk (abm : AudioBufferManager)
    (chunk : List Nat) : AudioBufferManager :=
  (abm.addToBuffer chunk).2

/-- The chunk loop of `processTTSAudio` over one `[]AudioChunk` batch. -/
def AudioBufferManager.processChunks (abm : AudioBufferManager)
    (chunks : List (List Nat)) : AudioBufferManager :=
  chunks.foldl AudioBufferManager.processChunk abm

/-! ## AudioBuffer (`pkg/audioBuffer.go`)

The later draft of the buffer: audio flows directly through the
`ttsAudioChan` channel of `[][]byte` batches; only timings have their
own queue. -/

structure AudioBuffer where
  ttsAudioChan : List (List (List Nat))
  timings : List TimingInfo
  config : AudioConfiguration
  totalSamples : Int
  bufferSize : Nat
  isClosed : Bool
  deriving DecidableEq, Repr

/-- Model of `AudioBuffer.AddToBuffer`: deprecated, always returns `nil` and does
nothing (`pkg/audioBuffer.go` lines 44-48). -/
def AudioBuffer.addToBuffer (ab : AudioBuffer) (audioData : List Nat) :
    Option GoError × AudioBuffer :=
  (none, ab)

/-- Model of `AudioBuffer.GetFromBuffer`: when closed, `ErrBufferEmpty`; otherwise
receive a batch from `ttsAudioChan` (timeout if none is queued), return
its first chunk and *add* its frame count to `totalSamples`
(`pkg/audioBuffer.go` line 86: `totalSamples +=`); an empty batch yields
`ErrBufferEmpty`. -/
def AudioBuffer.getFromBuffer (ab : AudioBuffer) :
    (Option (List Nat) × Option GoError) × AudioBuffer :=
  if ab.isClosed then
    ((none, some .bufferEmpty), ab)
  else
    match ab.ttsAudioChan with
    | [] => ((none, some .bufferTimeout), ab)
    | audioChunks :: rest =>
      match audioChunks with
      | [] => ((none, some .bufferEmpty), { ab with ttsAudioChan := rest })
      | audioData :: _ =>
        ((some audioData, none),
          { ab with
            ttsAudioChan := rest
            totalSamples :=
              ab.totalSamples + (audioData.length / ab.config.getBytesPerFrame : Nat) })

/-- Model of `AudioBuffer.ClearBuffer`: drains the timing queue and zeroes
`totalSamples`; `ttsAudioChan` is not touched. -/
def AudioBuffer.clearBuffer (ab : AudioBuffer) : AudioBuffer :=
  { ab with timings := [], totalSamples := 0 }

/-! ## Sentence splitting (`audioConfig.go`, `TextProcessor.splitIntoSentences`)

`strings.Split(text, ".")` produces the maximal dot-free runs of the
text (with the dots removed); each run is `strings.TrimSpace`d and empty
results are discarded. -/

/-- Go `unicode.IsSpace` restricted to the ASCII range (the inputs of
interest); `strings.TrimSpace` cuts these from both ends. -/
def isSpaceChar (c : Char) : Bool :=
  c = ' ' ∨ c = '\t' ∨ c = '\n' ∨ c = '\x0b' ∨ c = '\x0c' ∨ c = '\r'

/-- Model of `strings.Split(text, ".")`. -/
def splitOnDot : List Char → List (List Char)
  | [] => [[]]
  | c :: rest =>
    match splitOnDot rest with
    | [] => [[]]
    | s :: ss => if c = '.' then [] :: s :: ss else (c :: s) :: ss

/-- Model of `strings.TrimSpace`. -/
def trimSpace (l : List Char) : List Char :=
  ((l.dropWhile isSpaceChar).reverse.dropWhile isSpaceChar).reverse

/-- Model of `TextProcessor.splitIntoSentences`. -/
def splitIntoSentences (text : List Char) : List (List Char) :=
  ((splitOnDot text).map trimSpace).filter (fun s => s ≠ [])

/-- Sentence terminators as the spec lists them (`.`, `!`, `?`, newline);
used only to state the segmentation claim. -/
def isTerminator (c : Char) : Bool :=
  c = '.' ∨ c = '!' ∨ c = '?' ∨ c = '\n'

/-! ## Synthesis failover loop (`audioConfig.go`)

`synthesizeSentence` attempts the current engine; on failure it calls
`switchToNextEngine` and retries itself recursively when the switch
succeeded, and returns the error otherwise.  `switchToNextEngine`
refuses when at most one engine is configured and otherwise advances
`currentEngine` to `(currentEngine + 1) % len(engines)`.

The recursion is modelled with explicit fuel (a bound on the number of
synthesis attempts): `none` means the loop is still retrying after
consuming the whole attempt budget.  `outcome i k` tells whether engine
`i` succeeds at overall attempt number `k` (the engines are external
collaborators, so their behaviour is an oracle parameter). -/

/-- Model of `TextToAudioStream.switchToNextEngine` on `n` engines with current
index `cur`: `(switched?, new index)`. -/
def switchToNextEngine (n cur : Nat) : Bool × Nat :=
  if n ≤ 1 then (false, cur) else (true, (cur + 1) % n)

/-- The attempt loop of `synthesizeSentence`: `some true` = synthesis
succeeded, `some false` = gave up with an error (single-engine case),
`none` = attempt budget exhausted while still retrying. -/
def synthesizeAttempts (outcome : Nat → Nat → Bool) (n : Nat) :
    Nat → Nat → Nat → Option Bool
  | 0, _, _ => none
  | fuel + 1, cur, k =>
    if outcome cur k then
      some true
    else
      match switchToNextEngine n cur with
      | (true, cur') => synthesizeAttempts outcome n fuel cur' (k + 1)
      | (false, _) => some false

/-! ## Device adaptor (`audioStream.go`)

Float samples are represented by their integer numerators: a 16-bit
sample `v/32768.0` is the `Int` `v`, and silence `0.0` is `0`. -/

/-- Model of `AudioStream` state; `audioBuffer` is the `chan []float32` of
capacity 100 feeding the PortAudio callback. -/
structure AudioStreamState where
  config : AudioConfiguration
  isOpen : Bool
  isActive : Bool
  isClosed : Bool
  actualSampleRate : Int
  audioBuffer : List (List Int)
  bufferSize : Nat
  deriving DecidableEq, Repr

/-- Model of `NewAudioStream`. -/
def mkAudioStream (config : AudioConfiguration) : AudioStreamState :=
  { config := config
    isOpen := false
    isActive := false
    isClosed := false
    actualSampleRate := 0
    audioBuffer := []
    bufferSize := 100 }

/-- The Go helper `abs` of `audioStream.go`. -/
def goAbs (x : Int) : Int := if x < 0 then -x else x

/-- The candidate rates hard-coded in `selectBestSampleRate`. -/
def supportedRates : List Int := [8000, 11025, 16000, 22050, 44100, 48000]

/-- The second loop of `selectBestSampleRate`: scan the candidates,
replacing the running best exactly on a strict improvement of the
absolute distance to `desired`.  The accumulator starts at the device's
default rate. -/
def closestRateScan (desired : Int) : List Int → Int × Int → Int × Int
  | [], acc => acc
  | rate :: rs, (closestRate, minDiff) =>
    if goAbs (rate - desired) < minDiff then
      closestRateScan desired rs (rate, goAbs (rate - desired))
    else
      closestRateScan desired rs (closestRate, minDiff)

/-- Model of `AudioStream.selectBestSampleRate` with the device's
`DefaultSampleRate` (truncated to int) as first argument: return
`desiredRate` when it occurs among the candidates; otherwise the scan
starting from the device default. -/
def selectBestSampleRate (deviceDefault desiredRate : Int) : Int :=
  if desiredRate ∈ supportedRates then
    desiredRate
  else
    (closestRateScan desiredRate supportedRates
      (deviceDefault, goAbs (deviceDefault - desiredRate))).1

/-- Go `int16(lo) | int16(hi)<<8` on two bytes: two's-complement 16-bit
reinterpretation of `lo + 256*hi`. -/
def toInt16 (lo hi : Nat) : Int :=
  let x := lo % 256 + 256 * (hi % 256)
  if x < 32768 then (x : Int) else (x : Int) - 65536

/-- Model of `convertInt16ToFloat32`: consume the bytes two at a time; an odd
trailing byte makes the Go loop index `data[i+1]` out of range (runtime
panic), modelled as `none`. -/
def convertInt16ToFloat32 : List Nat → Option (List Int)
  | [] => some []
  | [_] => none
  | lo :: hi :: rest => (convertInt16ToFloat32 rest).map (toInt16 lo hi :: ·)

/-- Sample value, 24-bit little-endian, with the explicit sign extension of
`convertInt24ToFloat32`. -/
def toInt24 (b0 b1 b2 : Nat) : Int :=
  let x := b0 % 256 + 256 * (b1 % 256) + 65536 * (b2 % 256)
  if x < 8388608 then (x : Int) else (x : Int) - 16777216

/-- Model of `convertInt24ToFloat32` (missing trailing bytes panic, as above). -/
def convertInt24ToFloat32 : List Nat → Option (List Int)
  | [] => some []
  | [_] => none
  | [_, _] => none
  | b0 :: b1 :: b2 :: rest => (convertInt24ToFloat32 rest).map (toInt24 b0 b1 b2 :: ·)

/-- Go `int32` from four little-endian bytes via wrapping shifts. -/
def toInt32 (b0 b1 b2 b3 : Nat) : Int :=
  let x := b0 % 256 + 256 * (b1 % 256) + 65536 * (b2 % 256) + 16777216 * (b3 % 256)
  if x < 2147483648 then (x : Int) else (x : Int) - 4294967296

/-- Model of `convertInt32ToFloat32`. -/
def convertInt32ToFloat32 : List Nat → Option (List Int)
  | [] => some []
  | [_] => none
  | [_, _] => none
  | [_, _, _] => none
  | b0 :: b1 :: b2 :: b3 :: rest =>
    (convertInt32ToFloat32 rest).map (toInt32 b0 b1 b2 b3 :: ·)

/-- Model of `AudioStream.convertBytesToFloat32`: dispatch on `BitsPerSample`,
defaulting to the 16-bit conversion. -/
def convertBytesToFloat32 (bits : Nat) (data : List Nat) : Option (List Int) :=
  if bits = 16 then convertInt16ToFloat32 data
  else if bits = 24 then convertInt24ToFloat32 data
  else if bits = 32 then convertInt32ToFloat32 data
  else convertInt16ToFloat32 data

/-- Model of `AudioStream.WriteAudioData`: reject unless the stream is active,
open and not closed; convert the bytes (a conversion panic is `none`);
enqueue non-blockingly, and on a full queue the 100 ms grace wait
expires without a concurrent consumer, so the data is dropped with
`ErrBufferFull`. -/
def AudioStreamState.writeAudioData (as : AudioStreamState) (data : List Nat) :
    Option (Option GoError × AudioStreamState) :=
  if ¬as.isActive ∨ ¬as.isOpen ∨ as.isClosed then
    some (some .streamNotActive, as)
  else
    (convertBytesToFloat32 as.config.bitsPerSample data).map fun audioData =>
      if as.audioBuffer.length < as.bufferSize then
        (none, { as with audioBuffer := as.audioBuffer ++ [audioData] })
      else
        (some .bufferFull, as)

/-- Model of `AudioStream.audioCallback` filling `out` of length `outLen`:
copy `min (len chunk) outLen` samples from the next queued chunk and pad
with zeros; or emit all zeros when the queue is empty.  The muted flag
is not consulted. -/
def AudioStreamState.audioCallback (as : AudioStreamState) (outLen : Nat) :
    List Int × AudioStreamState :=
  match as.audioBuffer with
  | [] => (List.replicate outLen 0, as)
  | audioData :: rest =>
    (audioData.take outLen ++ List.replicate (outLen - audioData.length) 0,
      { as with audioBuffer := rest })

/-- Model of `AudioStream.SetMuted`: record the flag; always `nil`. -/
def AudioStreamState.setMuted (as : AudioStreamState) (muted : Bool) :
    Option GoError × AudioStreamState :=
  (none, { as with config := { as.config with muted := muted } })

/-- Model of `AudioStream.StopStream`. -/
def AudioStreamState.stopStream (as : AudioStreamState) :
    Option GoError × AudioStreamState :=
  if ¬as.isActive then
    (some .streamNotActive, as)
  else
    (none, { as with isActive := false })

/-- Model of `AudioStream.CloseStream` (no prior `lastError` in this model, so the
final `return as.lastError` is `nil`). -/
def AudioStreamState.closeStream (as : AudioStreamState) :
    Option GoError × AudioStreamState :=
  if as.isClosed then
    (none, as)
  else
    (none, { as with isActive := false, isOpen := false, isClosed := true })

/-! ## StreamPlayer (`streamPlayer.go`)

The player wraps the `AudioBufferManager` and the `AudioStream`.  Wall
clock statistics (`StartTime`, `LastActivityTime`, `PlaybackDuration`)
are kept as an abstract tick counter `now` advanced by the caller; the
code stores `time.Now()` in both the muted and the un-muted run alike. -/

structure PlaybackStats where
  bytesPlayed : Int
  chunksPlayed : Int
  wordsPlayed : Int
  lastActivityTick : Int
  deriving DecidableEq, Repr

structure StreamPlayerState where
  bufferManager : AudioBufferManager
  audioStream : AudioStreamState
  playbackActive : Bool
  playbackPaused : Bool
  immediateStopClosed : Bool
  stats : PlaybackStats
  deriving DecidableEq, Repr

/-- Model of `StreamPlayer.processAudioChunk` at abstract time `now`: pull one
chunk from the buffer manager, write it to the audio stream, then update
`BytesPlayed`, `ChunksPlayed` and `LastActivityTime`.  `none` models the
Go panic propagated out of `WriteAudioData`. -/
def StreamPlayerState.processAudioChunk (sp : StreamPlayerState) (now : Int) :
    Option (Option GoError × StreamPlayerState) :=
  match sp.bufferManager.getFromBuffer with
  | ((none, err), abm') => some (err, { sp with bufferManager := abm' })
  | ((some audioData, _), abm') =>
    (AudioStreamState.writeAudioData sp.audioStream audioData).map fun (werr, as') =>
      match werr with
      | some e =>
        (some (.wrapped e), { sp with bufferManager := abm', audioStream := as' })
      | none =>
        (none,
          { sp with
            bufferManager := abm'
            audioStream := as'
            stats :=
              { sp.stats with
                bytesPlayed := sp.stats.bytesPlayed + audioData.length
                chunksPlayed := sp.stats.chunksPlayed + 1
                lastActivityTick := now } })

/-- Model of `StreamPlayer.Stop`: error when not active; otherwise close the stop
channel, deactivate, stop and close the audio stream (each failure is
wrapped and returned), clear the buffer.  A Go panic (close of a closed
channel) is `none`; it is unreachable from states created by
`Start`/`Stop` but the model keeps it explicit. -/
def StreamPlayerState.stop (sp : StreamPlayerState) :
    Option (Option GoError × StreamPlayerState) :=
  if ¬sp.playbackActive then
    some (some .playerNotPlaying, sp)
  else if sp.immediateStopClosed then
    none
  else
    let sp1 :=
      { sp with
        immediateStopClosed := true
        playbackActive := false
        playbackPaused := false }
    match sp1.audioStream.stopStream with
    | (some e, as') => some (some (.wrapped e), { sp1 with audioStream := as' })
    | (none, as') =>
      match as'.closeStream with
      | (some e, as'') => some (some (.wrapped e), { sp1 with audioStream := as'' })
      | (none, as'') =>
        some (none,
          { sp1 with
            audioStream := as''
            bufferManager := sp1.bufferManager.clearBuffer })

/-! ## StreamPlayer draft of `src/unnamed/part_004`

This `AudioBuffer`-backed variant differs in `Pause`/`Resume`: the
pause/resume signals are non-blocking channel sends.  The signal
channels are modelled as pending flags (a send marks the flag, a full
channel is ignored exactly like the `default` branch). -/

structure StreamPlayerAB where
  bufferManager : AudioBuffer
  playbackActive : Bool
  playbackPaused : Bool
  pausePending : Bool
  resumePending : Bool
  stats : PlaybackStats
  onPauseCalls : Nat
  onResumeCalls : Nat
  deriving DecidableEq, Repr

/-- Model of `StreamPlayer.Pause` (`part_004` lines 186-213): `ErrPlayerNotPlaying`
when inactive, `ErrPlayerPaused` when already paused; otherwise set the
flag, send the pause signal and fire `onPlaybackPause`. -/
def StreamPlayerAB.pause (sp : StreamPlayerAB) :
    Option GoError × StreamPlayerAB :=
  if ¬sp.playbackActive then
    (some .playerNotPlaying, sp)
  else if sp.playbackPaused then
    (some .playerPaused, sp)
  else
    (none,
      { sp with
        playbackPaused := true
        pausePending := true
        onPauseCalls := sp.onPauseCalls + 1 })

/-- Model of `StreamPlayer.Resume` (`part_004` lines 216-243): `ErrPlayerNotPlaying`
when inactive; `nil` with no effect when not paused; otherwise clear the
flag, send the resume signal and fire `onPlaybackResume`. -/
def StreamPlayerAB.resume (sp : StreamPlayerAB) :
    Option GoError × StreamPlayerAB :=
  if ¬sp.playbackActive then
    (some .playerNotPlaying, sp)
  else if ¬sp.playbackPaused then
    (none, sp)
  else
    (none,
      { sp with
        playbackPaused := false
        resumePending := true
        onResumeCalls := sp.onResumeCalls + 1 })

/-! ## TextToAudioStream (`audioConfig.go`) -/

structure TextToAudioStream where
  isPlaying : Bool
  isPaused : Bool
  ctxCancelled : Bool
  player : StreamPlayerState
  enginesClosed : Bool
  textBuffer : List (List Char)
  textBufferCap : Nat
  textBufferClosed : Bool
  charBufferClosed : Bool
  ttsAudioChanClosed : Bool
  deriving DecidableEq, Repr

/-- Model of `TextToAudioStream.Feed`: reject while playing; otherwise a
non-blocking send into `textBuffer` (capacity 100), full buffer is an
error. -/
def TextToAudioStream.feed (tts : TextToAudioStream) (text : List Char) :
    Option GoError × TextToAudioStream :=
  if tts.isPlaying then
    (some .feedWhilePlaying, tts)
  else if tts.textBuffer.length < tts.textBufferCap then
    (none, { tts with textBuffer := tts.textBuffer ++ [text] })
  else
    (some .textBufferFull, tts)

/-- Model of `TextToAudioStream.Stop`: `nil` when not playing; otherwise clear the
flags, cancel the context and stop the player. -/
def TextToAudioStream.stop (tts : TextToAudioStream) :
    Option (Option GoError × TextToAudioStream) :=
  if ¬tts.isPlaying then
    some (none, tts)
  else
    let tts1 := { tts with isPlaying := false, isPaused := false, ctxCancelled := true }
    (tts1.player.stop).map fun (e, p') => (e, { tts1 with player := p' })

/-- Outcome of `TextToAudioStream.Close`: a normal return carrying the
Go error value, or a runtime panic (close of an already-closed
channel). -/
inductive CloseOutcome
  | ret (e : Option GoError) (s : TextToAudioStream)
  | panicked
  deriving DecidableEq, Repr

/-- Model of `TextToAudioStream.Close`: `Stop()`, then `player.Stop()` (again),
then close every engine (`BaseEngine.Close` is idempotent and returns
`nil`), then `close` the three channels — closing an already-closed Go
channel panics. -/
def TextToAudioStream.close (tts : TextToAudioStream) : CloseOutcome :=
  match tts.stop with
  | none => .panicked
  | some (some e, tts1) => .ret (some e) tts1
  | some (none, tts1) =>
    match tts1.player.stop with
    | none => .panicked
    | some (some e, p') => .ret (some e) { tts1 with player := p' }
    | some (none, p') =>
      let tts2 := { tts1 with player := p', enginesClosed := true }
      if tts2.textBufferClosed then .panicked
      else
        let tts3 := { tts2 with textBufferClosed := true }
        if tts3.charBufferClosed then .panicked
        else
          let tts4 := { tts3 with charBufferClosed := true }
          if tts4.ttsAudioChanClosed then .panicked
          else .ret none { tts4 with ttsAudioChanClosed := true }

/-! ## Concrete fixtures used by counterexamples and witnesses -/

/-- Mono 16 kHz, 16-bit: two bytes per frame. -/
def testConfig : AudioConfiguration :=
  { channels := 1, sampleRate := 16000, bitsPerSample := 16, muted := false }

/-- An open `AudioBufferManager` whose PCM queue is at capacity
(capacity 1, one queued chunk). -/
def fullBufferManager : AudioBufferManager :=
  { mkAudioBufferManager testConfig 1 with audioBuffer := [[7]] }

/-! ## C1 — `AddToBuffer` on a full open buffer -/

/-- C1 counterexample: with the PCM queue at capacity and the buffer
*not* closed, `AddToBuffer` returns `ErrBufferFull` instead of blocking,
and the `processTTSAudio` loop drops the chunk (state unchanged) — the
claim says a `Put` never returns `Full` nor drops while the buffer is
open. -/
theorem c1_put_counterexample :
    fullBufferManager.isClosed = false ∧
    fullBufferManager.audioBuffer.length = fullBufferManager.bufferSize ∧
    (fullBufferManager.addToBuffer [0]).1 = some GoError.bufferFull ∧
    fullBufferManager.processChunk [0] = fullBufferManager := by
  decide

/-- C1 amended: `AddToBuffer` is non-blocking.  On an open buffer whose
queue is at capacity it returns `ErrBufferFull` with the state unchanged
and `processTTSAudio` drops the chunk; on an open buffer with room it
succeeds and appends the chunk; on a closed buffer it returns
`ErrBufferFull`. -/
theorem c1_addToBuffer_nonblocking
    (abm abmR abmC : AudioBufferManager) (d dR dC : List Nat)
    (hopen : abm.isClosed = false)
    (hfull : abm.bufferSize ≤ abm.audioBuffer.length)
    (hopenR : abmR.isClosed = false)
    (hroom : abmR.audioBuffer.length < abmR.bufferSize)
    (hclosed : abmC.isClosed = true) :
    abm.addToBuffer d = (some GoError.bufferFull, abm) ∧
    abm.processChunk d = abm ∧
    (abmR.addToBuffer dR).1 = none ∧
    (abmR.addToBuffer dR).2.audioBuffer = abmR.audioBuffer ++ [dR] ∧
    abmC.addToBuffer dC = (some GoError.bufferFull, abmC) := by
  simp [AudioBufferManager.addToBuffer, AudioBufferManager.processChunk,
    hopen, hopenR, hclosed, hroom, Nat.not_lt.mpr hfull]

/-- Witness for `c1_addToBuffer_nonblocking` at concrete states. -/
theorem c1_addToBuffer_nonblocking_witness :
    fullBufferManager.addToBuffer [0] = (some GoError.bufferFull, fullBufferManager) ∧
    ((mkAudioBufferManager testConfig 1).addToBuffer [1, 2]).1 = none ∧
    ({ mkAudioBufferManager testConfig 1 with isClosed := true }.addToBuffer [3]).1 =
      some GoError.bufferFull := by
  have h := c1_addToBuffer_nonblocking fullBufferManager
    (mkAudioBufferManager testConfig 1)
    { mkAudioBufferManager testConfig 1 with isClosed := true }
    [0] [1, 2] [3] (by decide) (by decide) (by decide) (by decide) (by decide)
  exact ⟨h.1, h.2.2.1, by rw [h.2.2.2.2]⟩

/-! ## C5 — `Clear` -/

/-- An open `pkg` `AudioBuffer` holding one queued audio batch and one
timing entry. -/
def bufferedAudioBuffer : AudioBuffer :=
  { ttsAudioChan := [[[1, 2]]]
    timings := [{ word := ['h'], startTime := 0, endTime := 1, duration := 1 }]
    config := testConfig
    totalSamples := 1
    bufferSize := 10
    isClosed := false }

/-- C5 counterexample: in the `pkg/audioBuffer.go` variant, `ClearBuffer`
does not drain `ttsAudioChan` — a chunk enqueued before `Clear` is still
dequeued afterwards, although the claim says both queues are empty after
`Clear`. -/
theorem c5_clear_counterexample :
    bufferedAudioBuffer.clearBuffer.totalSamples = 0 ∧
    bufferedAudioBuffer.clearBuffer.ttsAudioChan = [[[1, 2]]] ∧
    bufferedAudioBuffer.clearBuffer.getFromBuffer.1.1 = some [1, 2] := by
  decide

/-- C5 amended: `AudioBufferManager.ClearBuffer` zeroes `totalSamples`
and empties both queues; in the `pkg` `AudioBuffer`, `ClearBuffer`
zeroes `totalSamples` and drains only the timing queue, leaving
`ttsAudioChan` untouched. -/
theorem c5_clear_spec (abm : AudioBufferManager) (ab : AudioBuffer) :
    abm.clearBuffer.totalSamples = 0 ∧
    abm.clearBuffer.audioBuffer = [] ∧
    abm.clearBuffer.timings = [] ∧
    ab.clearBuffer.totalSamples = 0 ∧
    ab.clearBuffer.timings = [] ∧
    ab.clearBuffer.ttsAudioChan = ab.ttsAudioChan := by
  simp [AudioBufferManager.clearBuffer, AudioBuffer.clearBuffer]

/-! ## C4 — `total_samples` accounting -/

/-- An open `pkg` `AudioBuffer` with one batch of one 2-byte chunk and
`totalSamples = 5`. -/
def sampledAudioBuffer : AudioBuffer :=
  { ttsAudioChan := [[[0, 0]]]
    timings := []
    config := testConfig
    totalSamples := 5
    bufferSize := 10
    isClosed := false }

/-- C4 counterexample: in `pkg/audioBuffer.go`, dequeuing a 2-byte chunk
(one frame at 2 bytes/frame) *increments* `totalSamples` from 5 to 6 —
the claim says dequeue decrements it by the chunk's frame count. -/
theorem c4_get_counterexample :
    sampledAudioBuffer.totalSamples = 5 ∧
    sampledAudioBuffer.getFromBuffer.1.1 = some [0, 0] ∧
    sampledAudioBuffer.getFromBuffer.2.totalSamples = 6 := by
  decide

/-- Total frame count of a chunk list at `bpf` bytes per frame. -/
def sumFrames (bpf : Nat) (cs : List (List Nat)) : Int :=
  (cs.map fun c => ((c.length / bpf : Nat) : Int)).sum

/-- Iterated `GetFromBuffer` (discarding the returned chunks). -/
def AudioBufferManager.getMany : AudioBufferManager → Nat → AudioBufferManager
  | abm, 0 => abm
  | abm, n + 1 => (abm.getFromBuffer.2).getMany n

lemma processChunks_fields (cs : List (List Nat)) :
    ∀ abm : AudioBufferManager, abm.isClosed = false →
      abm.audioBuffer.length + cs.length ≤ abm.bufferSize →
      (abm.processChunks cs).audioBuffer = abm.audioBuffer ++ cs ∧
      (abm.processChunks cs).totalSamples =
        abm.totalSamples + sumFrames abm.config.getBytesPerFrame cs ∧
      (abm.processChunks cs).isClosed = false ∧
      (abm.processChunks cs).config = abm.config ∧
      (abm.processChunks cs).bufferSize = abm.bufferSize := by
  induction cs with
  | nil =>
    intro abm hopen _
    simp [AudioBufferManager.processChunks, sumFrames, hopen]
  | cons c cs ih =>
    intro abm hopen hcap
    have hroom : abm.audioBuffer.length < abm.bufferSize := by
      simp [List.length_cons] at hcap
      omega
    have hstep :
        abm.processChunk c =
          { abm with
            audioBuffer := abm.audioBuffer ++ [c]
            totalSamples :=
              abm.totalSamples + (c.length / abm.config.getBytesPerFrame : Nat)
            bytesProcessed := abm.bytesProcessed + c.length
            chunksProcessed := abm.chunksProcessed + 1 } := by
      simp [AudioBufferManager.processChunk, AudioBufferManager.addToBuffer,
        hopen, hroom]
    have hrest := ih (abm.processChunk c)
      (by rw [hstep]; simpa using hopen)
      (by rw [hstep]; simp [List.length_cons] at hcap ⊢; omega)
    have hfold :
        abm.processChunks (c :: cs) = (abm.processChunk c).processChunks cs := by
      simp [AudioBufferManager.processChunks]
    rw [hfold]
    refine ⟨?_, ?_, ?_, ?_, ?_⟩
    · rw [hrest.1, hstep]; simp
    · rw [hrest.2.1, hstep]; simp [sumFrames]; ring
    · exact hrest.2.2.1
    · rw [hrest.2.2.2.1, hstep]
    · rw [hrest.2.2.2.2, hstep]

lemma getMany_fields (ds : List (List Nat)) :
    ∀ abm : AudioBufferManager, abm.isClosed = false →
      abm.audioBuffer = ds →
      (abm.getMany ds.length).totalSamples =
        abm.totalSamples - sumFrames abm.config.getBytesPerFrame ds ∧
      (abm.getMany ds.length).audioBuffer = [] := by
  induction ds with
  | nil =>
    intro abm _ hq
    simp [AudioBufferManager.getMany, sumFrames, hq]
  | cons d ds ih =>
    intro abm hopen hq
    have hstep :
        abm.getFromBuffer.2 =
          { abm with
            audioBuffer := ds
            totalSamples :=
              abm.totalSamples - (d.length / abm.config.getBytesPerFrame : Nat) } := by
      simp [AudioBufferManager.getFromBuffer, hopen, hq]
    have hrest := ih (abm.getFromBuffer.2)
      (by rw [hstep]; simpa using hopen) (by rw [hstep])
    have hfold :
        abm.getMany (d :: ds).length = (abm.getFromBuffer.2).getMany ds.length := by
      simp [AudioBufferManager.getMany]
    rw [hfold]
    refine ⟨?_, hrest.2⟩
    rw [hrest.1, hstep]
    simp [sumFrames]
    ring

/-- C4 amended: in `AudioBufferManager` enqueue and dequeue form a
balanced pair on `totalSamples` (filling an empty buffer with any chunk
list and then draining it restores `totalSamples`); but in the `pkg`
`AudioBuffer` the deprecated `AddToBuffer` is a no-op and
`GetFromBuffer` *increments* `totalSamples` by `len(bytes)/bytes_per_frame`
on dequeue — only `Clear` resets it. -/
theorem c4_samples_accounting
    (abm : AudioBufferManager) (cs : List (List Nat))
    (ab : AudioBuffer) (c0 : List Nat) (batch : List (List Nat))
    (restChan : List (List (List Nat))) (d : List Nat)
    (hopen : abm.isClosed = false) (hempty : abm.audioBuffer = [])
    (hcap : cs.length ≤ abm.bufferSize)
    (habOpen : ab.isClosed = false)
    (hchan : ab.ttsAudioChan = (c0 :: batch) :: restChan) :
    ((abm.processChunks cs).getMany cs.length).totalSamples = abm.totalSamples ∧
    ((abm.processChunks cs).getMany cs.length).audioBuffer = [] ∧
    ab.getFromBuffer.2.totalSamples =
      ab.totalSamples + ((c0.length / ab.config.getBytesPerFrame : Nat) : Int) ∧
    ab.addToBuffer d = (none, ab) := by
  have hput := processChunks_fields cs abm hopen (by simp [hempty]; omega)
  have hget := getMany_fields cs (abm.processChunks cs) hput.2.2.1
    (by rw [hput.1, hempty]; simp)
  refine ⟨?_, hget.2, ?_, rfl⟩
  · rw [hget.1, hput.2.1, hput.2.2.2.1]
    ring
  · simp [AudioBuffer.getFromBuffer, habOpen, hchan]

/-- Witness for `c4_samples_accounting` on a two-chunk fill/drain. -/
theorem c4_samples_accounting_witness :
    (((mkAudioBufferManager testConfig 3).processChunks
        [[1, 2], [3, 4, 5, 6]]).getMany 2).totalSamples = 0 ∧
    sampledAudioBuffer.getFromBuffer.2.totalSamples = sampledAudioBuffer.totalSamples + 1 := by
  have h := c4_samples_accounting (mkAudioBufferManager testConfig 3)
    [[1, 2], [3, 4, 5, 6]] sampledAudioBuffer [0, 0] [] [] [9]
    (by decide) (by decide) (by decide) (by decide) (by decide)
  exact ⟨h.1, by rw [h.2.2.1]; decide⟩

/-! ## C2 — failover termination -/

/-- C2 counterexample: with two engines that keep failing, after
`len(engines) + 1 = 3` attempts the loop of `synthesizeSentence` is
still retrying (it never reaches a terminal condition), contradicting
the claimed full-rotation termination and the `len(engines)+1` attempt
bound; a budget of 100 attempts fares no better. -/
theorem c2_counterexample :
    synthesizeAttempts (fun _ _ => false) 2 3 0 0 = none ∧
    synthesizeAttempts (fun _ _ => false) 2 100 0 0 = none := by
  exact ⟨rfl, rfl⟩

lemma synthesizeAttempts_single (outcome : Nat → Nat → Bool) (fuel cur k : Nat) :
    synthesizeAttempts outcome 1 (fuel + 1) cur k = some (outcome cur k) := by
  unfold synthesizeAttempts switchToNextEngine
  cases h : outcome cur k <;> simp [h]

lemma synthesizeAttempts_allFail {n : Nat} (hn : 2 ≤ n) :
    ∀ fuel cur k, synthesizeAttempts (fun _ _ => false) n fuel cur k = none := by
  intro fuel
  induction fuel with
  | zero => intro cur k; rfl
  | succ m ih =>
    intro cur k
    unfold synthesizeAttempts switchToNextEngine
    have : ¬n ≤ 1 := by omega
    simp [this]
    exact ih _ _

/-- C2 amended: with a single engine the attempt loop performs exactly
one attempt — the first failure is returned immediately, with no backoff
and no retry; with `n ≥ 2` engines, failover rotates round-robin
(`(cur+1) % n`) and retries without bound — when every attempt fails the
loop never terminates, whatever the attempt budget. -/
theorem c2_failover_termination (outcome : Nat → Nat → Bool)
    (fuel cur k cur2 k2 n : Nat) (hn : 2 ≤ n) :
    synthesizeAttempts outcome 1 (fuel + 1) cur k = some (outcome cur k) ∧
    synthesizeAttempts (fun _ _ => false) n fuel cur2 k2 = none ∧
    switchToNextEngine n cur2 = (true, (cur2 + 1) % n) := by
  refine ⟨synthesizeAttempts_single outcome fuel cur k,
    synthesizeAttempts_allFail hn fuel cur2 k2, ?_⟩
  have : ¬n ≤ 1 := by omega
  simp [switchToNextEngine, this]

/-- Witness for `c2_failover_termination`: a lone always-failing engine
gives up after its single attempt; two always-failing engines are still
being retried after seven attempts. -/
theorem c2_failover_termination_witness :
    synthesizeAttempts (fun _ _ => false) 1 8 0 0 = some false ∧
    synthesizeAttempts (fun _ _ => false) 2 7 4 9 = none ∧
    switchToNextEngine 2 4 = (true, 1) := by
  have h := c2_failover_termination (fun _ _ => false) 7 0 0 4 9 2 (by decide)
  simpa using h

/-! ## C6 — `Feed` while playing -/

/-- All-zero playback statistics. -/
def zeroStats : PlaybackStats :=
  { bytesPlayed := 0, chunksPlayed := 0, wordsPlayed := 0, lastActivityTick := 0 }

/-- A player that has not been started. -/
def idlePlayer : StreamPlayerState :=
  { bufferManager := mkAudioBufferManager testConfig 10
    audioStream := mkAudioStream testConfig
    playbackActive := false
    playbackPaused := false
    immediateStopClosed := false
    stats := zeroStats }

/-- A `TextToAudioStream` in the middle of playback. -/
def playingStream : TextToAudioStream :=
  { isPlaying := true
    isPaused := false
    ctxCancelled := false
    player := idlePlayer
    enginesClosed := false
    textBuffer := []
    textBufferCap := 100
    textBufferClosed := false
    charBufferClosed := false
    ttsAudioChanClosed := false }

/-- C6 counterexample: `Feed` on a stream with `isPlaying = true` is
rejected with the already-playing error and the text is not forwarded —
the claim says the default policy accepts feeds mid-playback. -/
theorem c6_feed_counterexample :
    playingStream.isPlaying = true ∧
    playingStream.feed ("hi".toList) = (some GoError.feedWhilePlaying, playingStream) := by
  constructor
  · rfl
  · decide

/-- C6 amended: `Feed` fails with the already-playing error whenever
`isPlaying` is set (there is no policy making it succeed); when not
playing it appends the text if the 100-slot text buffer has room and
fails with the buffer-full error otherwise. -/
theorem c6_feed_rejected_while_playing
    (tts ttsI ttsF : TextToAudioStream) (t tI tF : List Char)
    (hp : tts.isPlaying = true)
    (hi : ttsI.isPlaying = false)
    (hroom : ttsI.textBuffer.length < ttsI.textBufferCap)
    (hf : ttsF.isPlaying = false)
    (hfull : ttsF.textBufferCap ≤ ttsF.textBuffer.length) :
    tts.feed t = (some GoError.feedWhilePlaying, tts) ∧
    ttsI.feed tI = (none, { ttsI with textBuffer := ttsI.textBuffer ++ [tI] }) ∧
    ttsF.feed tF = (some GoError.textBufferFull, ttsF) := by
  simp [TextToAudioStream.feed, hp, hi, hroom, hf, Nat.not_lt.mpr hfull]

/-- Witness for `c6_feed_rejected_while_playing` at concrete streams. -/
theorem c6_feed_rejected_while_playing_witness :
    playingStream.feed ("a".toList) = (some GoError.feedWhilePlaying, playingStream) ∧
    ({ playingStream with isPlaying := false }.feed ("a".toList)).1 = none ∧
    ({ playingStream with isPlaying := false, textBufferCap := 0 }.feed ("a".toList)).1 =
      some GoError.textBufferFull := by
  have h := c6_feed_rejected_while_playing playingStream
    { playingStream with isPlaying := false }
    { playingStream with isPlaying := false, textBufferCap := 0 }
    ("a".toList) ("a".toList) ("a".toList)
    rfl rfl (by decide) rfl (by decide)
  exact ⟨h.1, by rw [h.2.1], by rw [h.2.2]⟩

/-! ## C10 — draft `StreamPlayer` pause/resume asymmetry -/

/-- A `pkg` `AudioBuffer` with nothing queued. -/
def emptyAudioBuffer : AudioBuffer :=
  { ttsAudioChan := [], timings := [], config := testConfig
    totalSamples := 0, bufferSize := 10, isClosed := false }

/-- A started, un-paused draft player. -/
def activePlayerAB : StreamPlayerAB :=
  { bufferManager := emptyAudioBuffer
    playbackActive := true
    playbackPaused := false
    pausePending := false
    resumePending := false
    stats := zeroStats
    onPauseCalls := 0
    onResumeCalls := 0 }

/-- The same player after a `Pause`. -/
def pausedPlayerAB : StreamPlayerAB :=
  { activePlayerAB with playbackPaused := true, pausePending := true, onPauseCalls := 1 }

/-- C10: `Resume` on an active, un-paused player returns `nil` and
changes nothing — state, pending signals, statistics and callback
counts included — while a second `Pause` on an already-paused player
returns `ErrPlayerPaused` (also without side effects). -/
theorem c10_resume_noop_pause_errors (sp sq : StreamPlayerAB)
    (hA : sp.playbackActive = true) (hNP : sp.playbackPaused = false)
    (hA2 : sq.playbackActive = true) (hP2 : sq.playbackPaused = true) :
    sp.resume = (none, sp) ∧ sq.pause = (some GoError.playerPaused, sq) := by
  constructor
  · simp [StreamPlayerAB.resume, hA, hNP]
  · simp [StreamPlayerAB.pause, hA2, hP2]

/-- Witness for `c10_resume_noop_pause_errors` at concrete players. -/
theorem c10_resume_noop_pause_errors_witness :
    activePlayerAB.resume = (none, activePlayerAB) ∧
    pausedPlayerAB.pause = (some GoError.playerPaused, pausedPlayerAB) :=
  c10_resume_noop_pause_errors activePlayerAB pausedPlayerAB rfl rfl rfl rfl

/-! ## C8 — sample-rate negotiation -/

/-- C8 counterexample: when the requested rate is not a candidate, the
scan starts from the device's default rate, which can win — asking for
12000 on a device whose default rate is 12001 returns 12001, which is
not in the candidate set `{8000, 11025, 16000, 22050, 44100, 48000}` at
all (the claim says the result is always a minimal-distance member of
that set). -/
theorem c8_selectRate_counterexample :
    selectBestSampleRate 12001 12000 = 12001 ∧
    (12001 : Int) ∉ supportedRates := by
  decide

lemma closestRateScan_spec (desired : Int) :
    ∀ (rs : List Int) (best minDiff : Int), goAbs (best - desired) = minDiff →
      goAbs ((closestRateScan desired rs (best, minDiff)).1 - desired) =
        (closestRateScan desired rs (best, minDiff)).2 ∧
      ((closestRateScan desired rs (best, minDiff)).1 = best ∨
        (closestRateScan desired rs (best, minDiff)).1 ∈ rs) ∧
      (closestRateScan desired rs (best, minDiff)).2 ≤ minDiff ∧
      ∀ r ∈ rs,
        (closestRateScan desired rs (best, minDiff)).2 ≤ goAbs (r - desired) := by
  intro rs
  induction rs with
  | nil =>
    intro best minDiff hinv
    simp [closestRateScan, hinv]
  | cons rate rs ih =>
    intro best minDiff hinv
    by_cases hlt : goAbs (rate - desired) < minDiff
    · have hstep :
          closestRateScan desired (rate :: rs) (best, minDiff) =
            closestRateScan desired rs (rate, goAbs (rate - desired)) := by
        simp [closestRateScan, hlt]
      have hrec := ih rate (goAbs (rate - desired)) rfl
      rw [hstep]
      refine ⟨hrec.1, ?_, ?_, ?_⟩
      · rcases hrec.2.1 with h | h
        · exact Or.inr (by simp [h])
        · exact Or.inr (by simp [h])
      · exact le_trans hrec.2.2.1 (le_of_lt hlt)
      · intro r hr
        rcases List.mem_cons.mp hr with h | h
        · subst h; exact hrec.2.2.1
        · exact hrec.2.2.2 r h
    · have hstep :
          closestRateScan desired (rate :: rs) (best, minDiff) =
            closestRateScan desired rs (best, minDiff) := by
        simp [closestRateScan, hlt]
      have hrec := ih best minDiff hinv
      rw [hstep]
      refine ⟨hrec.1, ?_, hrec.2.2.1, ?_⟩
      · rcases hrec.2.1 with h | h
        · exact Or.inl h
        · exact Or.inr (by simp [h])
      · intro r hr
        rcases List.mem_cons.mp hr with h | h
        · subst h
          exact le_trans hrec.2.2.1 (not_lt.mp hlt)
        · exact hrec.2.2.2 r h

/-- C8 amended: `selectBestSampleRate` returns the requested rate when it
belongs to the candidate set; otherwise the device's *default* rate also
competes — the result is the requested-distance minimiser over the
device default and the candidate set (ties keep the device default), so
it need not lie in the candidate set. -/
theorem c8_sample_rate_selection (deviceDefault desiredRate : Int) :
    (desiredRate ∈ supportedRates →
      selectBestSampleRate deviceDefault desiredRate = desiredRate) ∧
    (desiredRate ∉ supportedRates →
      (selectBestSampleRate deviceDefault desiredRate = deviceDefault ∨
        selectBestSampleRate deviceDefault desiredRate ∈ supportedRates) ∧
      ∀ r ∈ deviceDefault :: supportedRates,
        goAbs (selectBestSampleRate deviceDefault desiredRate - desiredRate) ≤
          goAbs (r - desiredRate)) := by
  constructor
  · intro hmem
    simp [selectBestSampleRate, hmem]
  · intro hmem
    have hscan := closestRateScan_spec desiredRate supportedRates deviceDefault
      (goAbs (deviceDefault - desiredRate)) rfl
    have hsel :
        selectBestSampleRate deviceDefault desiredRate =
          (closestRateScan desiredRate supportedRates
            (deviceDefault, goAbs (deviceDefault - desiredRate))).1 := by
      simp [selectBestSampleRate, hmem]
    constructor
    · rw [hsel]; exact hscan.2.1
    · intro r hr
      rw [hsel, hscan.1]
      rcases List.mem_cons.mp hr with h | h
      · subst h; exact hscan.2.2.1
      · exact hscan.2.2.2 r h

/-- Witness for `c8_sample_rate_selection`: 16000 is kept as requested;
asking for 12000 on a device defaulting to 44100 beats both 44100 and
16000 in distance (the scan lands on 11025). -/
theorem c8_sample_rate_selection_witness :
    selectBestSampleRate 44100 16000 = 16000 ∧
    goAbs (selectBestSampleRate 44100 12000 - 12000) ≤ goAbs (16000 - 12000) ∧
    goAbs (selectBestSampleRate 44100 12000 - 12000) ≤ goAbs (44100 - 12000) := by
  refine ⟨(c8_sample_rate_selection 44100 16000).1 (by decide), ?_, ?_⟩
  · exact ((c8_sample_rate_selection 44100 12000).2 (by decide)).2 16000 (by decide)
  · exact ((c8_sample_rate_selection 44100 12000).2 (by decide)).2 44100 (by decide)

/-! ## C3 — sentence segmentation -/

/-- C3 counterexample: `splitIntoSentences "Hi!Yo."` yields the single
unit `"Hi!Yo"` — the `'!'` did not terminate a unit, the trailing `'.'`
was stripped rather than preserved, and the emitted unit does not end in
any of the claimed terminators. -/
theorem c3_split_counterexample :
    splitIntoSentences ("Hi!Yo.".toList) = ["Hi!Yo".toList] ∧
    ("Hi!Yo".toList).getLast? = some 'o' ∧
    isTerminator 'o' = false := by
  decide

/-- Rejoining the `'.'`-separated pieces with `'.'`. -/
def joinDots : List (List Char) → List Char
  | [] => []
  | [s] => s
  | s :: ss => s ++ '.' :: joinDots ss

lemma splitOnDot_ne_nil (l : List Char) : splitOnDot l ≠ [] := by
  induction l with
  | nil => simp [splitOnDot]
  | cons c rest ih =>
    unfold splitOnDot
    cases h : splitOnDot rest with
    | nil => simp
    | cons s ss => by_cases hc : c = '.' <;> simp [hc]

lemma joinDots_splitOnDot (l : List Char) : joinDots (splitOnDot l) = l := by
  induction l with
  | nil => rfl
  | cons c rest ih =>
    unfold splitOnDot
    cases h : splitOnDot rest with
    | nil => exact absurd h (splitOnDot_ne_nil rest)
    | cons s ss =>
      rw [h] at ih
      by_cases hc : c = '.'
      · subst hc
        show joinDots ([] :: s :: ss) = '.' :: rest
        cases ss with
        | nil => simp [joinDots] at ih ⊢; exact ih
        | cons t ts => simp [joinDots] at ih ⊢; exact ih
      · simp only [if_neg hc]
        cases ss with
        | nil => simp [joinDots] at ih ⊢; exact ih
        | cons t ts => simp [joinDots] at ih ⊢; exact ih

lemma not_dot_mem_splitOnDot (l : List Char) :
    ∀ u ∈ splitOnDot l, '.' ∉ u := by
  induction l with
  | nil =>
    intro u hu
    simp [splitOnDot] at hu
    simp [hu]
  | cons c rest ih =>
    intro u hu
    unfold splitOnDot at hu
    cases h : splitOnDot rest with
    | nil => exact absurd h (splitOnDot_ne_nil rest)
    | cons s ss =>
      rw [h] at hu
      have hu' : u ∈ if c = '.' then [] :: s :: ss else (c :: s) :: ss := hu
      by_cases hc : c = '.'
      · rw [if_pos hc] at hu'
        rcases List.mem_cons.mp hu' with h1 | h1
        · simp [h1]
        · exact ih u (h ▸ h1)
      · rw [if_neg hc] at hu'
        rcases List.mem_cons.mp hu' with h1 | h1
        · subst h1
          intro hmem
          rcases List.mem_cons.mp hmem with h2 | h2
          · exact hc h2.symm
          · exact ih s (h ▸ List.mem_cons_self s ss) h2
        · exact ih u (h ▸ List.mem_cons.mpr (Or.inr h1))

lemma mem_of_mem_dropWhile (q : Char → Bool) :
    ∀ (l : List Char) (x : Char), x ∈ l.dropWhile q → x ∈ l := by
  intro l
  induction l with
  | nil => simp
  | cons a as ih =>
    intro x hx
    rw [List.dropWhile_cons] at hx
    by_cases h : q a
    · simp only [if_pos h] at hx
      exact List.mem_cons.mpr (Or.inr (ih x hx))
    · simp only [if_neg h] at hx
      exact hx

lemma head?_dropWhile_not (q : Char → Bool) :
    ∀ (l : List Char) (c : Char), (l.dropWhile q).head? = some c → q c = false := by
  intro l
  induction l with
  | nil => simp
  | cons a as ih =>
    intro c hc
    rw [List.dropWhile_cons] at hc
    by_cases h : q a
    · simp only [if_pos h] at hc
      exact ih c hc
    · simp only [if_neg h] at hc
      simp at hc
      subst hc
      simpa using h

lemma getLast?_dropWhile (q : Char → Bool) :
    ∀ (l : List Char) (c : Char),
      (l.dropWhile q).getLast? = some c → l.getLast? = some c := by
  intro l
  induction l with
  | nil => simp
  | cons a as ih =>
    intro c hc
    rw [List.dropWhile_cons] at hc
    by_cases h : q a
    · simp only [if_pos h] at hc
      have has : as ≠ [] := by
        intro hnil
        subst hnil
        simp at hc
      cases as with
      | nil => exact absurd rfl has
      | cons b bs =>
        rw [List.getLast?_cons_cons]
        exact ih c hc
    · simp only [if_neg h] at hc
      exact hc

lemma trimSpace_head_not_space (l : List Char) (c : Char)
    (h : (trimSpace l).head? = some c) : isSpaceChar c = false := by
  unfold trimSpace at h
  rw [List.head?_reverse] at h
  have h2 := getLast?_dropWhile isSpaceChar _ c h
  rw [List.getLast?_reverse] at h2
  exact head?_dropWhile_not isSpaceChar _ c h2

lemma trimSpace_getLast_not_space (l : List Char) (c : Char)
    (h : (trimSpace l).getLast? = some c) : isSpaceChar c = false := by
  unfold trimSpace at h
  rw [List.getLast?_reverse] at h
  exact head?_dropWhile_not isSpaceChar _ c h

lemma mem_of_mem_trimSpace (l : List Char) (x : Char)
    (h : x ∈ trimSpace l) : x ∈ l := by
  unfold trimSpace at h
  rw [List.mem_reverse] at h
  have h2 := mem_of_mem_dropWhile isSpaceChar _ x h
  rw [List.mem_reverse] at h2
  exact mem_of_mem_dropWhile isSpaceChar _ x h2

/-- C3 amended: the splitter cuts the text exactly at the `'.'`
characters (rejoining the raw pieces with `'.'` reconstructs the text;
`'!'`, `'?'` and newline never end a unit), and every emitted unit is a
nonempty whitespace-trimmed piece with its terminating `'.'` removed:
units contain no `'.'` and neither start nor end with whitespace. -/
theorem c3_split_only_on_dot (text : List Char) :
    joinDots (splitOnDot text) = text ∧
    ∀ u ∈ splitIntoSentences text,
      u ≠ [] ∧ '.' ∉ u ∧
      (∀ c, u.head? = some c → isSpaceChar c = false) ∧
      (∀ c, u.getLast? = some c → isSpaceChar c = false) := by
  refine ⟨joinDots_splitOnDot text, ?_⟩
  intro u hu
  unfold splitIntoSentences at hu
  rcases List.mem_filter.mp hu with ⟨hmem, hne⟩
  rcases List.mem_map.mp hmem with ⟨s, hs, hts⟩
  subst hts
  refine ⟨by simpa using hne, ?_, ?_, ?_⟩
  · intro hdot
    exact not_dot_mem_splitOnDot text s hs (mem_of_mem_trimSpace s '.' hdot)
  · intro c hc
    exact trimSpace_head_not_space s c hc
  · intro c hc
    exact trimSpace_getLast_not_space s c hc

/-- Witness for `c3_split_only_on_dot` on a concrete text. -/
theorem c3_split_only_on_dot_witness :
    joinDots (splitOnDot (" ab. cd.".toList)) = " ab. cd.".toList ∧
    "ab".toList ≠ [] ∧ '.' ∉ "ab".toList := by
  have h := c3_split_only_on_dot (" ab. cd.".toList)
  have hu := h.2 ("ab".toList) (by decide)
  exact ⟨h.1, hu.1, hu.2.1⟩

/-! ## C7 — mute -/

/-- Model of `StreamPlayer.Mute`/`Unmute`: delegate to `audioStream.SetMuted`. -/
def StreamPlayerState.setMuted (sp : StreamPlayerState) (b : Bool) : StreamPlayerState :=
  { sp with audioStream := (sp.audioStream.setMuted b).2 }

/-- An open, active, *muted* device stream with nothing queued. -/
def mutedStream : AudioStreamState :=
  { config := { channels := 1, sampleRate := 16000, bitsPerSample := 16, muted := true }
    isOpen := true
    isActive := true
    isClosed := false
    actualSampleRate := 16000
    audioBuffer := []
    bufferSize := 100 }

/-- C7 counterexample: with the stream muted, writing the PCM bytes
`[0x00, 0x40]` (the 16-bit sample 16384, i.e. 0.5) and then running the
device callback delivers the real sample 16384 to the device, not
silence — the muted flag is never consulted by `WriteAudioData` or
`audioCallback`. -/
theorem c7_mute_counterexample :
    mutedStream.config.muted = true ∧
    (mutedStream.writeAudioData [0, 64]).map (fun r => (r.2.audioCallback 1).1) =
      some [16384] ∧
    ([16384] : List Int) ≠ List.replicate 1 0 := by
  decide

lemma writeAudioData_setMuted (as : AudioStreamState) (b : Bool) (data : List Nat) :
    (as.setMuted b).2.writeAudioData data =
      (as.writeAudioData data).map fun r => (r.1, (r.2.setMuted b).2) := by
  cases as with
  | mk config isOpen isActive isClosed rate buf cap =>
    cases config with
    | mk channels sampleRate bits muted =>
      cases hconv : convertBytesToFloat32 bits data with
      | none =>
        cases isActive <;> cases isOpen <;> cases isClosed <;>
          simp [AudioStreamState.writeAudioData, AudioStreamState.setMuted, hconv]
      | some audioData =>
        by_cases hroom : buf.length < cap <;>
          cases isActive <;> cases isOpen <;> cases isClosed <;>
            simp [AudioStreamState.writeAudioData, AudioStreamState.setMuted,
              hconv, hroom]

lemma audioCallback_setMuted (as : AudioStreamState) (b : Bool) (outLen : Nat) :
    ((as.setMuted b).2.audioCallback outLen).1 = (as.audioCallback outLen).1 ∧
    ((as.setMuted b).2.audioCallback outLen).2 =
      ((as.audioCallback outLen).2.setMuted b).2 := by
  cases as with
  | mk config isOpen isActive isClosed rate buf cap =>
    cases buf with
    | nil => simp [AudioStreamState.audioCallback, AudioStreamState.setMuted]
    | cons d rest => simp [AudioStreamState.audioCallback, AudioStreamState.setMuted]

lemma processAudioChunk_setMuted (sp : StreamPlayerState) (b : Bool) (now : Int) :
    (sp.setMuted b).processAudioChunk now =
      (sp.processAudioChunk now).map fun r => (r.1, r.2.setMuted b) := by
  cases sp with
  | mk abm as active paused stopClosed stats =>
    have hbm : (StreamPlayerState.setMuted
        { bufferManager := abm, audioStream := as, playbackActive := active
          playbackPaused := paused, immediateStopClosed := stopClosed
          stats := stats } b).bufferManager = abm := rfl
    cases hget : abm.getFromBuffer with
    | mk res abm' =>
      cases res with
      | mk chunk err =>
        cases chunk with
        | none =>
          simp [StreamPlayerState.processAudioChunk, StreamPlayerState.setMuted,
            hget]
        | some audioData =>
          rw [StreamPlayerState.processAudioChunk, StreamPlayerState.processAudioChunk]
          simp only [StreamPlayerState.setMuted, hget]
          rw [writeAudioData_setMuted]
          cases hw : as.writeAudioData audioData with
          | none => simp
          | some r =>
            cases r with
            | mk werr as' =>
              cases werr with
              | none => simp [StreamPlayerState.setMuted]
              | some e => simp [StreamPlayerState.setMuted]

/-- C7 amended: the muted flag recorded by `SetMuted` is never consulted
by the playback path: `WriteAudioData`, the device callback and the
worker's `processAudioChunk` behave identically (same errors, same
buffers, same `bytes_played`/`chunks_played`/activity accounting, same
samples delivered to the device) whether or not the stream is muted —
the device output is the real audio, not silence. -/
theorem c7_mute_not_consulted (as : AudioStreamState) (b : Bool) (data : List Nat)
    (outLen : Nat) (sp : StreamPlayerState) (now : Int) :
    ((as.setMuted b).2.writeAudioData data =
      (as.writeAudioData data).map fun r => (r.1, (r.2.setMuted b).2)) ∧
    ((as.setMuted b).2.audioCallback outLen).1 = (as.audioCallback outLen).1 ∧
    ((sp.setMuted b).processAudioChunk now =
      (sp.processAudioChunk now).map fun r => (r.1, r.2.setMuted b)) :=
  ⟨writeAudioData_setMuted as b data, (audioCallback_setMuted as b outLen).1,
    processAudioChunk_setMuted sp b now⟩

/-! ## C9 — `Close` called twice -/

lemma playerStop_of_inactive (p : StreamPlayerState) (h : p.playbackActive = false) :
    p.stop = some (some GoError.playerNotPlaying, p) := by
  unfold StreamPlayerState.stop
  simp [h]

lemma playerStop_result_inactive (p p' : StreamPlayerState) (e : Option GoError)
    (h : p.stop = some (e, p')) : p'.playbackActive = false := by
  unfold StreamPlayerState.stop at h
  by_cases ha : p.playbackActive
  · rw [if_neg (by simp [ha])] at h
    by_cases hc : p.immediateStopClosed
    · rw [if_pos hc] at h
      exact absurd h (by simp)
    · rw [if_neg hc] at h
      dsimp only at h
      cases hss : p.audioStream.stopStream with
      | mk e1 as1 =>
        cases e1 with
        | some err =>
          rw [hss] at h
          simp at h
          rw [← h.2]
        | none =>
          rw [hss] at h
          dsimp only at h
          cases hcs : as1.closeStream with
          | mk e2 as2 =>
            cases e2 with
            | some err =>
              rw [hcs] at h
              simp at h
              rw [← h.2]
            | none =>
              rw [hcs] at h
              simp at h
              rw [← h.2]
  · rw [if_pos (by simpa using ha)] at h
    simp at h
    rw [← h.2]
    simpa using ha

/-- C9: `Close` is safe to call twice.  Whenever a `Close` returns
successfully, a second `Close` on the resulting stream does not panic
(in particular it never reaches the channel `close` calls again, so
nothing is double-released) and leaves the stream unchanged: it returns
early with `ErrPlayerNotPlaying` from the inner `player.Stop`. -/
theorem c9_close_idempotent (s s' : TextToAudioStream)
    (h : s.close = CloseOutcome.ret none s') :
    s'.close = CloseOutcome.ret (some GoError.playerNotPlaying) s' := by
  have key : s'.isPlaying = false ∧ s'.player.playbackActive = false := by
    by_cases hp : s.isPlaying
    · exfalso
      cases hps : s.player.stop with
      | none =>
        have : s.close = CloseOutcome.panicked := by
          unfold TextToAudioStream.close TextToAudioStream.stop
          simp [hp, hps]
        rw [this] at h
        exact absurd h (by simp)
      | some r =>
        cases r with
        | mk e p' =>
          cases e with
          | some err =>
            have : s.close =
                CloseOutcome.ret (some err)
                  { s with
                    isPlaying := false, isPaused := false, ctxCancelled := true
                    player := p' } := by
              unfold TextToAudioStream.close TextToAudioStream.stop
              simp [hp, hps]
            rw [this] at h
            exact absurd h (by simp)
          | none =>
            have hp' := playerStop_result_inactive s.player p' none hps
            have : s.close =
                CloseOutcome.ret (some GoError.playerNotPlaying)
                  { s with
                    isPlaying := false, isPaused := false, ctxCancelled := true
                    player := p' } := by
              unfold TextToAudioStream.close TextToAudioStream.stop
              simp [hp, hps, playerStop_of_inactive p' hp']
            rw [this] at h
            exact absurd h (by simp)
    · replace hp : s.isPlaying = false := by simpa using hp
      cases hps : s.player.stop with
      | none =>
        have : s.close = CloseOutcome.panicked := by
          unfold TextToAudioStream.close TextToAudioStream.stop
          simp [hp, hps]
        rw [this] at h
        exact absurd h (by simp)
      | some r =>
        cases r with
        | mk e p' =>
          cases e with
          | some err =>
            have : s.close = CloseOutcome.ret (some err) { s with player := p' } := by
              unfold TextToAudioStream.close TextToAudioStream.stop
              simp [hp, hps]
            rw [this] at h
            exact absurd h (by simp)
          | none =>
            have hp' := playerStop_result_inactive s.player p' none hps
            by_cases h1 : s.textBufferClosed
            · have : s.close = CloseOutcome.panicked := by
                unfold TextToAudioStream.close TextToAudioStream.stop
                simp [hp, hps, h1]
              rw [this] at h
              exact absurd h (by simp)
            · by_cases h2 : s.charBufferClosed
              · have : s.close = CloseOutcome.panicked := by
                  unfold TextToAudioStream.close TextToAudioStream.stop
                  simp [hp, hps, h1, h2]
                rw [this] at h
                exact absurd h (by simp)
              · by_cases h3 : s.ttsAudioChanClosed
                · have : s.close = CloseOutcome.panicked := by
                    unfold TextToAudioStream.close TextToAudioStream.stop
                    simp [hp, hps, h1, h2, h3]
                  rw [this] at h
                  exact absurd h (by simp)
                · have hfin : s.close =
                      CloseOutcome.ret none
                        { s with
                          player := p'
                          enginesClosed := true
                          textBufferClosed := true
                          charBufferClosed := true
                          ttsAudioChanClosed := true } := by
                    unfold TextToAudioStream.close TextToAudioStream.stop
                    simp [hp, hps, h1, h2, h3]
                  rw [hfin] at h
                  have hs' :
                      s' =
                        { s with
                          player := p'
                          enginesClosed := true
                          textBufferClosed := true
                          charBufferClosed := true
                          ttsAudioChanClosed := true } := by
                    cases h
                    rfl
                  rw [hs']
                  exact ⟨hp, hp'⟩
  obtain ⟨k1, k2⟩ := key
  cases s' with
  | mk ip ipd cc pl ec tb tbc tbcl cbcl tcl =>
    have k1' : ip = false := k1
    have k2' : pl.playbackActive = false := k2
    subst k1'
    unfold TextToAudioStream.close TextToAudioStream.stop
    simp [playerStop_of_inactive pl k2']

/-- An open and started device stream. -/
def startedStream : AudioStreamState :=
  { config := testConfig
    isOpen := true
    isActive := true
    isClosed := false
    actualSampleRate := 16000
    audioBuffer := []
    bufferSize := 100 }

/-- A player whose worker is running. -/
def runningPlayer : StreamPlayerState :=
  { bufferManager := mkAudioBufferManager testConfig 10
    audioStream := startedStream
    playbackActive := true
    playbackPaused := false
    immediateStopClosed := false
    stats := zeroStats }

/-- A stream on which `Close` succeeds (text processing already done,
player still running). -/
def closableStream : TextToAudioStream :=
  { isPlaying := false
    isPaused := false
    ctxCancelled := false
    player := runningPlayer
    enginesClosed := false
    textBuffer := []
    textBufferCap := 100
    textBufferClosed := false
    charBufferClosed := false
    ttsAudioChanClosed := false }

/-- Model of `closableStream` after its first successful `Close`. -/
def closedStream : TextToAudioStream :=
  { closableStream with
    player :=
      { runningPlayer with
        audioStream :=
          { startedStream with isOpen := false, isActive := false, isClosed := true }
        playbackActive := false
        immediateStopClosed := true }
    enginesClosed := true
    textBufferClosed := true
    charBufferClosed := true
    ttsAudioChanClosed := true }

/-- Witness for `c9_close_idempotent`: the first `Close` of
`closableStream` succeeds, and the second returns `ErrPlayerNotPlaying`
without panicking and without touching the state. -/
theorem c9_close_idempotent_witness :
    closedStream.close = CloseOutcome.ret (some GoError.playerNotPlaying) closedStream :=
  c9_close_idempotent closableStream closedStream (by decide)

end RealtimeTTS
